import Mathlib

/-!
Verification of the status-classification and problem-detection core of the
OpenManager dashboard (the `AIProcessor` class: `initProblemPatterns`,
`getEffectiveServerStatus`, `detectProblems`, plus the severity sort applied
by `updateProblemsList` in `data_processor.js`).

The JavaScript is embedded shallowly:
* a server snapshot becomes a structure whose optional fields are `Option`s
  (an absent JS field compares as "not triggering", exactly as
  `undefined >= 90` is `false` in JS);
* numbers become `ℚ`;
* a JS object produced by `detectProblems` becomes the `Problem` structure,
  whose literal field order is recorded by `Problem.toFields`;
* the wall-clock timestamp `new Date().toISOString()` taken inside
  `detectProblems` becomes an explicit `now : String` argument.
-/

/-- Character-list version of JS `String.prototype.startsWith`. -/
def startsWithChars : List Char → List Char → Bool
  | [], _ => true
  | _ :: _, [] => false
  | p :: ps, c :: cs => (p == c) && startsWithChars ps cs

/-- Character-list version of JS `String.prototype.includes`. -/
def subSearch (pat : List Char) : List Char → Bool
  | [] => startsWithChars pat []
  | c :: cs => startsWithChars pat (c :: cs) || subSearch pat cs

/-- JS `s.toLowerCase().includes(pat)` for an already-lowercase `pat`. -/
def lowerIncludes (s : String) (pat : String) : Bool :=
  subSearch pat.data (s.data.map Char.toLower)

/-- JS `v >= t` where `v` may be an absent field (`undefined >= t` is false). -/
def optGe (v : Option ℚ) (t : ℚ) : Bool :=
  match v with
  | none => false
  | some x => decide (t ≤ x)

/-- JS `v > t` where `v` may be an absent field. -/
def optGt (v : Option ℚ) (t : ℚ) : Bool :=
  match v with
  | none => false
  | some x => decide (t < x)

/-- One entry of the `server.disk` array; only `disk_usage_percent` is read. -/
structure DiskEntry where
  disk_usage_percent : Option ℚ
deriving Repr, DecidableEq

/-- The `server.net` record; only the error counters are read by the core. -/
structure Net where
  rx_errors : Option ℚ
  tx_errors : Option ℚ
deriving Repr, DecidableEq

/-- A ServerSnapshot as read by the core, with the source's field names.
`services` models the JS object as its entry list (name, state);
`errors` entries are `some s` for a string element and `none` for a
non-string element (the code guards with `typeof err === 'string'`). -/
structure Server where
  hostname : String
  cpu_usage : Option ℚ
  memory_usage_percent : Option ℚ
  disk : Option (List DiskEntry)
  services : Option (List (String × String))
  errors : Option (List (Option String))
  net : Option Net
deriving Repr, DecidableEq

/-- Condition of the `critical_cpu` pattern: `server.cpu_usage >= 90`. -/
def critical_cpu_cond (server : Server) : Bool :=
  optGe server.cpu_usage 90

/-- Condition of the `critical_memory` pattern: `server.memory_usage_percent >= 90`. -/
def critical_memory_cond (server : Server) : Bool :=
  optGe server.memory_usage_percent 90

/-- Condition of the `critical_disk` pattern:
`server.disk && server.disk.length > 0 && server.disk[0].disk_usage_percent >= 90`. -/
def critical_disk_cond (server : Server) : Bool :=
  match server.disk with
  | some (d :: _) => optGe d.disk_usage_percent 90
  | _ => false

/-- Condition of the `service_down` pattern:
`server.services && Object.values(server.services).includes('stopped')`. -/
def service_down_cond (server : Server) : Bool :=
  match server.services with
  | none => false
  | some svcs => svcs.any (fun kv => kv.2 == "stopped")

/-- Condition of the `critical_error_message` pattern: some `errors` entry is a
string whose lowercase form contains "critical". -/
def critical_error_cond (server : Server) : Bool :=
  match server.errors with
  | none => false
  | some es => es.any (fun e =>
      match e with
      | some str => lowerIncludes str "critical"
      | none => false)

/-- Condition of the `warning_cpu` pattern: `server.cpu_usage >= 70`. -/
def warning_cpu_cond (server : Server) : Bool :=
  optGe server.cpu_usage 70

/-- Condition of the `warning_memory` pattern: `server.memory_usage_percent >= 70`. -/
def warning_memory_cond (server : Server) : Bool :=
  optGe server.memory_usage_percent 70

/-- Condition of the `warning_disk` pattern: first mount at 70 or above. -/
def warning_disk_cond (server : Server) : Bool :=
  match server.disk with
  | some (d :: _) => optGe d.disk_usage_percent 70
  | _ => false

/-- Condition of the `warning_error_message` pattern: some string entry whose
lowercase form contains "warning" or "error". -/
def warning_error_cond (server : Server) : Bool :=
  match server.errors with
  | none => false
  | some es => es.any (fun e =>
      match e with
      | some str => lowerIncludes str "warning" || lowerIncludes str "error"
      | none => false)

/-- Condition of the `network_errors` pattern:
`server.net && (server.net.rx_errors > 50 || server.net.tx_errors > 50)`. -/
def network_errors_cond (server : Server) : Bool :=
  match server.net with
  | none => false
  | some n => optGt n.rx_errors 50 || optGt n.tx_errors 50

/-- One entry of the table returned by `initProblemPatterns`. -/
structure ProblemPattern where
  id : String
  condition : Server → Bool
  description : String
  severity : String
  causes : List String
  solutions : List String

/-- The ordered rule table returned by `initProblemPatterns` (critical
patterns first, then warning patterns, in source order). -/
def problemPatterns : List ProblemPattern :=
  [ { id := "critical_cpu"
      condition := critical_cpu_cond
      description := "CPU 사용률이 90% 이상으로 매우 높음"
      severity := "critical"
      causes := ["과도한 프로세스 실행", "백그라운드 작업 과부하", "리소스 집약적 애플리케이션", "악성 프로세스"]
      solutions := ["불필요한 프로세스 종료 (top, htop)", "애플리케이션 최적화", "서버 스케일업", "로드 밸런싱"] },
    { id := "critical_memory"
      condition := critical_memory_cond
      description := "메모리 사용률이 90% 이상으로 매우 높음"
      severity := "critical"
      causes := ["애플리케이션 메모리 누수", "캐시 설정 오류", "불필요한 서비스 과다 실행"]
      solutions := ["OOM 로그 분석 (dmesg)", "메모리 사용량 높은 프로세스 확인 (ps aux --sort=-%mem)", "애플리케이션 재시작/디버깅", "swap 공간 확인/추가"] },
    { id := "critical_disk"
      condition := critical_disk_cond
      description := "주요 디스크 파티션 사용률 90% 이상"
      severity := "critical"
      causes := ["로그 파일 누적", "임시 파일 미삭제", "데이터베이스 파일 급증", "백업 파일 과다"]
      solutions := ["대용량 파일/디렉토리 찾기 (ncdu, du)", "오래된 로그/임시파일 삭제", "로그 로테이션 설정", "디스크 확장/정리"] },
    { id := "service_down"
      condition := service_down_cond
      description := "하나 이상의 주요 서비스가 중지됨"
      severity := "critical"
      causes := ["서비스 충돌", "리소스 부족", "의존성 문제", "구성 오류"]
      solutions := ["서비스 로그 확인 (journalctl -u <service_name>)", "서비스 재시작 (systemctl restart <service_name>)", "의존성 패키지 확인/설치", "서비스 설정 파일 검토"] },
    { id := "critical_error_message"
      condition := critical_error_cond
      description := "시스템 로그에 \"Critical\" 수준 오류 메시지 발생"
      severity := "critical"
      causes := ["하드웨어 장애 임박", "커널 패닉", "중요 시스템 설정 오류"]
      solutions := ["즉시 시스템 로그 상세 분석 (journalctl, /var/log/syslog)", "하드웨어 진단", "전문가 지원 요청"] },
    { id := "warning_cpu"
      condition := warning_cpu_cond
      description := "CPU 사용률이 70% 이상으로 경고 수준"
      severity := "warning"
      causes := ["일시적 부하 증가", "최적화되지 않은 쿼리/작업", "리소스 부족 경계"]
      solutions := ["CPU 사용량 추이 모니터링", "최근 배포/변경 사항 확인", "자원 사용량 많은 프로세스 분석"] },
    { id := "warning_memory"
      condition := warning_memory_cond
      description := "메모리 사용률이 70% 이상으로 경고 수준"
      severity := "warning"
      causes := ["캐시 사용량 증가", "장시간 실행된 애플리케이션", "가용 메모리 부족 임박"]
      solutions := ["메모리 사용 패턴 분석", "캐시 정책 검토", "불필요한 프로세스 정리 주기적 실행 고려"] },
    { id := "warning_disk"
      condition := warning_disk_cond
      description := "주요 디스크 파티션 사용률 70% 이상"
      severity := "warning"
      causes := ["데이터 증가 추세", "정리되지 않은 파일들", "디스크 공간 부족 예측"]
      solutions := ["정기적인 디스크 정리 스크립트 실행", "파일 시스템 점검", "사용량 알림 설정 강화"] },
    { id := "warning_error_message"
      condition := warning_error_cond
      description := "\"Warning\" 또는 \"Error\" 수준의 오류 메시지 발생"
      severity := "warning"
      causes := ["경미한 설정 오류", "예상된 예외 상황", "잠재적 문제 징후"]
      solutions := ["관련 로그 확인하여 원인 분석", "애플리케이션/시스템 설정 검토", "주기적인 시스템 상태 점검"] },
    { id := "network_errors"
      condition := network_errors_cond
      description := "네트워크 수신/송신 오류 다수 발생"
      severity := "warning"
      causes := ["네트워크 인터페이스 문제", "케이블/스위치 불량", "드라이버 이슈", "네트워크 혼잡"]
      solutions := ["네트워크 인터페이스 상태 확인 (ethtool, ip link)", "케이블 및 연결 점검", "네트워크 드라이버 업데이트/재설치", "네트워크 트래픽 분석"] } ]

/-- The classifier `getEffectiveServerStatus`: `!server` returns "normal";
otherwise the critical patterns are scanned first (first match returns
"critical"), then the warning patterns, else "normal". -/
def getEffectiveServerStatus (server : Option Server) : String :=
  match server with
  | none => "normal"
  | some s =>
    if problemPatterns.any (fun p => p.severity == "critical" && p.condition s) then
      "critical"
    else if problemPatterns.any (fun p => p.severity == "warning" && p.condition s) then
      "warning"
    else
      "normal"

/-- The object literal pushed by `detectProblems` for one matching
(server, pattern) pair, with the source's field names: note `solution`
(singular, the solutions joined by a space) and `causes` joined by ", ". -/
structure Problem where
  serverHostname : String
  description : String
  severity : String
  solution : String
  causes : String
  timestamp : String
deriving Repr, DecidableEq

/-- Field (name, value) list of the object literal, in its literal order. -/
def Problem.toFields (p : Problem) : List (String × String) :=
  [("serverHostname", p.serverHostname),
   ("description", p.description),
   ("severity", p.severity),
   ("solution", p.solution),
   ("causes", p.causes),
   ("timestamp", p.timestamp)]

/-- Builds the record `detectProblems` pushes for a matching pair. -/
def mkProblem (now : String) (server : Server) (pattern : ProblemPattern) : Problem :=
  { serverHostname := server.hostname
    description := pattern.description
    severity := if pattern.severity == "critical" then "Critical" else "Warning"
    solution := String.intercalate " " pattern.solutions
    causes := String.intercalate ", " pattern.causes
    timestamp := now }

/-- The per-server block of `detectProblems`: every pattern whose condition
holds contributes one record, in rule-table order. -/
def detectForServer (now : String) (server : Server) : List Problem :=
  problemPatterns.filterMap (fun p =>
    if p.condition server then some (mkProblem now server p) else none)

/-- The detector `detectProblems`: absent or empty `serverData` yields `[]`;
otherwise each server is scanned against the whole pattern table in
server-iteration order. `now` stands for `new Date().toISOString()`. -/
def detectProblems (now : String) (serverData : Option (List Server)) : List Problem :=
  match serverData with
  | none => []
  | some data => (data.map (detectForServer now)).flatten

/-- Severity rank used by the sort in `updateProblemsList` of
`data_processor.js`: Critical 2, Warning/Error 1, anything else 0. -/
def severityScore (severity : String) : Int :=
  if severity == "Critical" then 2
  else if severity == "Warning" || severity == "Error" then 1
  else 0

/-- Stable sort by descending severity score, modelling the (stable) JS
`problems.sort((a, b) => severityScore(b.severity) - severityScore(a.severity))`. -/
def sortProblems (l : List Problem) : List Problem :=
  l.insertionSort (fun a b => severityScore b.severity ≤ severityScore a.severity)

/-- The list-shaping pipeline of `updateProblemsList`: keep only
Critical/Warning/Error entries, then sort Critical first (stable). -/
def updateProblemsListSort (l : List Problem) : List Problem :=
  sortProblems (l.filter (fun p =>
    p.severity == "Critical" || p.severity == "Warning" || p.severity == "Error"))

/-- Default problem record used only as the `List.getD` fallback. -/
def dfltProblem : Problem :=
  { serverHostname := "", description := "", severity := "", solution := "",
    causes := "", timestamp := "" }

/-- Default disk entry used only as a `headD` fallback in statements. -/
def dfltDisk : DiskEntry := { disk_usage_percent := none }

/-- Default net record used only as a `getD` fallback in statements. -/
def dfltNet : Net := { rx_errors := none, tx_errors := none }

/-- True when an `errors` entry is a string containing (case-insensitively)
"critical", "warning" or "error" — i.e. it can trigger an error-message rule. -/
def errTriggers (e : Option String) : Bool :=
  match e with
  | some str => lowerIncludes str "critical" || lowerIncludes str "warning" || lowerIncludes str "error"
  | none => false


def srvCpu95 : Server :=
  { hostname := "web-01", cpu_usage := some 95, memory_usage_percent := some 40,
    disk := some [{ disk_usage_percent := some 30 }],
    services := some [("nginx", "running")], errors := some [], net := none }


/-- Disjunction of the five critical-pattern conditions, in table order. -/
def criticalAny (s : Server) : Bool :=
  critical_cpu_cond s || critical_memory_cond s || critical_disk_cond s ||
    service_down_cond s || critical_error_cond s

/-- Disjunction of the five warning-pattern conditions, in table order. -/
def warningAny (s : Server) : Bool :=
  warning_cpu_cond s || warning_memory_cond s || warning_disk_cond s ||
    warning_error_cond s || network_errors_cond s

lemma classify_eq (s : Server) :
    getEffectiveServerStatus (some s) =
      (if criticalAny s then "critical" else if warningAny s then "warning" else "normal") := by
  simp [getEffectiveServerStatus, problemPatterns, criticalAny, warningAny, Bool.or_assoc]

lemma optGe_eq_true {v : Option ℚ} {t x : ℚ} (hv : v = some x) (h : t ≤ x) :
    optGe v t = true := by
  subst hv; simpa [optGe] using h

lemma optGe_eq_false {v : Option ℚ} {t : ℚ} (h : v.getD 0 < t) :
    optGe v t = false := by
  cases v with
  | none => rfl
  | some x =>
    simp only [Option.getD_some] at h
    simpa [optGe] using not_le.mpr h

lemma optGt_eq_false {v : Option ℚ} {t : ℚ} (h : v.getD 0 ≤ t) :
    optGt v t = false := by
  cases v with
  | none => rfl
  | some x =>
    simp only [Option.getD_some] at h
    simpa [optGt] using not_lt.mpr h

/-- C1. Any of the five critical conditions (cpu ≥ 90, memory ≥ 90, first
mount's disk usage ≥ 90, some service stopped, some error message containing
"critical" case-insensitively) forces `getEffectiveServerStatus` to return
"critical", whatever the warning-tier fields look like: the critical patterns
are scanned before any warning pattern is consulted. -/
theorem classify_critical_of_critical_condition (s : Server)
    (h : (∃ c, s.cpu_usage = some c ∧ 90 ≤ c) ∨
         (∃ m, s.memory_usage_percent = some m ∧ 90 ≤ m) ∨
         (∃ d ds v, s.disk = some (d :: ds) ∧ d.disk_usage_percent = some v ∧ 90 ≤ v) ∨
         (∃ svcs kv, s.services = some svcs ∧ kv ∈ svcs ∧ kv.2 = "stopped") ∨
         (∃ es str, s.errors = some es ∧ some str ∈ es ∧ lowerIncludes str "critical" = true)) :
    getEffectiveServerStatus (some s) = "critical" := by
  rw [classify_eq]
  have hcrit : criticalAny s = true := by
    rcases h with ⟨c, hc, h90⟩ | ⟨m, hm, h90⟩ | ⟨d, ds, v, hd, hdv, h90⟩ |
      ⟨svcs, kv, hsv, hmem, hstop⟩ | ⟨es, str, he, hmem, hinc⟩
    · simp [criticalAny, critical_cpu_cond, optGe_eq_true hc h90]
    · simp [criticalAny, critical_memory_cond, optGe_eq_true hm h90]
    · simp [criticalAny, critical_disk_cond, hd, optGe_eq_true hdv h90]
    · have : service_down_cond s = true := by
        simp only [service_down_cond, hsv, List.any_eq_true]
        exact ⟨kv, hmem, by simp [hstop]⟩
      simp [criticalAny, this]
    · have : critical_error_cond s = true := by
        simp only [critical_error_cond, he, List.any_eq_true]
        exact ⟨some str, hmem, hinc⟩
      simp [criticalAny, this]
  rw [if_pos hcrit]

/-- Witness for C1 at a concrete snapshot with cpu at 95%. -/
theorem classify_critical_witness :
    getEffectiveServerStatus (some srvCpu95) = "critical" :=
  classify_critical_of_critical_condition srvCpu95
    (Or.inl ⟨95, rfl, by norm_num⟩)

def srvNetErr : Server :=
  { hostname := "net-01", cpu_usage := some 10, memory_usage_percent := some 10,
    disk := some [{ disk_usage_percent := some 10 }],
    services := some [("nginx", "running")], errors := some [],
    net := some { rx_errors := some 100, tx_errors := some 0 } }

/-- C2 counterexample. `srvNetErr` has cpu, memory and disk usage at 10, no
stopped service and no error message, yet `getEffectiveServerStatus` returns
"warning", not "normal": the `network_errors` warning pattern
(`rx_errors > 50 || tx_errors > 50`) also participates in classification, so
the network error counters are not unconstrained. -/
theorem classify_network_errors_not_normal :
    getEffectiveServerStatus (some srvNetErr) ≠ "normal" ∧
      getEffectiveServerStatus (some srvNetErr) = "warning" := by
  constructor <;> decide

/-- C2 as amended. If cpu, memory and the first mount's disk usage are below
70 (or absent), no service is stopped, no error message contains
"critical"/"warning"/"error" case-insensitively, and additionally both
network error counters are at most 50 (or absent), then
`getEffectiveServerStatus` returns "normal". -/
theorem classify_normal_of_nontriggering (s : Server)
    (hc : s.cpu_usage.getD 0 < 70)
    (hm : s.memory_usage_percent.getD 0 < 70)
    (hd : (((s.disk.getD []).headD dfltDisk).disk_usage_percent).getD 0 < 70)
    (hs : ∀ kv ∈ s.services.getD [], kv.2 ≠ "stopped")
    (he : ∀ e ∈ s.errors.getD [], errTriggers e = false)
    (hrx : ((s.net.getD dfltNet).rx_errors).getD 0 ≤ 50)
    (htx : ((s.net.getD dfltNet).tx_errors).getD 0 ≤ 50) :
    getEffectiveServerStatus (some s) = "normal" := by
  rw [classify_eq]
  have hcpu90 : critical_cpu_cond s = false := optGe_eq_false (hc.trans (by norm_num))
  have hcpu70 : warning_cpu_cond s = false := optGe_eq_false hc
  have hmem90 : critical_memory_cond s = false := optGe_eq_false (hm.trans (by norm_num))
  have hmem70 : warning_memory_cond s = false := optGe_eq_false hm
  have hdisk : critical_disk_cond s = false ∧ warning_disk_cond s = false := by
    rcases hdk : s.disk with _ | (_ | ⟨d, r⟩)
    · constructor <;> simp [critical_disk_cond, warning_disk_cond, hdk]
    · constructor <;> simp [critical_disk_cond, warning_disk_cond, hdk]
    · rw [hdk] at hd
      simp only [Option.getD_some, List.headD_cons] at hd
      constructor
      · simp only [critical_disk_cond, hdk]
        exact optGe_eq_false (hd.trans (by norm_num))
      · simp only [warning_disk_cond, hdk]
        exact optGe_eq_false hd
  have hsvc : service_down_cond s = false := by
    rcases hsv : s.services with _ | svcs
    · simp [service_down_cond, hsv]
    · rw [hsv] at hs
      simp only [Option.getD_some] at hs
      simp only [service_down_cond, hsv]
      rw [List.any_eq_false]
      intro kv hkv
      simp [hs kv hkv]
  have herr : critical_error_cond s = false ∧ warning_error_cond s = false := by
    rcases her : s.errors with _ | es
    · constructor <;> simp [critical_error_cond, warning_error_cond, her]
    · rw [her] at he
      simp only [Option.getD_some] at he
      have hsplit : ∀ e ∈ es, ∀ str, e = some str →
          lowerIncludes str "critical" = false ∧ lowerIncludes str "warning" = false ∧
            lowerIncludes str "error" = false := by
        intro e hee str hstr
        have := he e hee
        rw [hstr] at this
        simp only [errTriggers, Bool.or_eq_false_iff] at this
        exact ⟨this.1.1, this.1.2, this.2⟩
      constructor
      · simp only [critical_error_cond, her]
        rw [List.any_eq_false]
        intro e hee
        cases e with
        | none => simp
        | some str => simp [(hsplit (some str) hee str rfl).1]
      · simp only [warning_error_cond, her]
        rw [List.any_eq_false]
        intro e hee
        cases e with
        | none => simp
        | some str =>
          have h3 := hsplit (some str) hee str rfl
          simp [h3.2.1, h3.2.2]
  have hnet : network_errors_cond s = false := by
    rcases hn : s.net with _ | n
    · simp [network_errors_cond, hn]
    · rw [hn] at hrx htx
      simp only [Option.getD_some] at hrx htx
      simp [network_errors_cond, hn, optGt_eq_false hrx, optGt_eq_false htx]
  simp [criticalAny, warningAny, hcpu90, hcpu70, hmem90, hmem70, hdisk.1, hdisk.2,
    hsvc, herr.1, herr.2, hnet]

def srvAllLow : Server :=
  { hostname := "ok-01", cpu_usage := some 10, memory_usage_percent := some 20,
    disk := some [{ disk_usage_percent := some 30 }],
    services := some [("nginx", "running"), ("mysql", "running")],
    errors := some [some "all good"], net := some { rx_errors := some 3, tx_errors := some 0 } }

/-- Witness for the amended C2 at a concrete all-quiet snapshot. -/
theorem classify_normal_witness :
    getEffectiveServerStatus (some srvAllLow) = "normal" :=
  classify_normal_of_nontriggering srvAllLow (by decide) (by decide) (by decide)
    (by decide) (by decide) (by decide) (by decide)

/-- C6. A single stopped service forces "critical", whatever the numeric
metrics and error lists are (they are completely unconstrained here). -/
theorem classify_critical_of_service_stopped (s : Server)
    (svcs : List (String × String)) (kv : String × String)
    (hsv : s.services = some svcs) (hmem : kv ∈ svcs) (hstop : kv.2 = "stopped") :
    getEffectiveServerStatus (some s) = "critical" := by
  rw [classify_eq]
  have hdown : service_down_cond s = true := by
    simp only [service_down_cond, hsv, List.any_eq_true]
    exact ⟨kv, hmem, by simp [hstop]⟩
  simp [criticalAny, hdown]

def srvRedisStopped : Server :=
  { hostname := "cache-01", cpu_usage := some 0, memory_usage_percent := some 0,
    disk := some [{ disk_usage_percent := some 0 }],
    services := some [("redis", "stopped")], errors := some [], net := none }

/-- Witness for C6: all numeric usages at 0, redis stopped. -/
theorem service_stopped_witness :
    getEffectiveServerStatus (some srvRedisStopped) = "critical" :=
  classify_critical_of_service_stopped srvRedisStopped [("redis", "stopped")]
    ("redis", "stopped") rfl (by decide) rfl

/-- A snapshot with every optional field absent: only the hostname is set. -/
def bareServer (hn : String) : Server :=
  { hostname := hn, cpu_usage := none, memory_usage_percent := none,
    disk := none, services := none, errors := none, net := none }

/-- C9. `getEffectiveServerStatus` is total: on every structurally valid
snapshot (any subset of optional fields present) it returns one of
"normal"/"warning"/"critical"; in particular a snapshot with every optional
field absent classifies as "normal" (missing numerics count as below every
threshold, missing collections as empty). -/
theorem classify_total :
    (∀ s : Option Server,
        getEffectiveServerStatus s = "normal" ∨ getEffectiveServerStatus s = "warning" ∨
          getEffectiveServerStatus s = "critical") ∧
    (∀ hn : String, getEffectiveServerStatus (some (bareServer hn)) = "normal") := by
  constructor
  · intro s
    cases s with
    | none => exact Or.inl rfl
    | some s =>
      rw [classify_eq]
      split_ifs
      · exact Or.inr (Or.inr rfl)
      · exact Or.inr (Or.inl rfl)
      · exact Or.inl rfl
  · intro hn
    rfl

/-- C10. A null/undefined server argument yields "normal" (the `!server`
guard), rather than a thrown error. -/
theorem classify_null_normal : getEffectiveServerStatus none = "normal" := rfl

/-- C7. `detectProblems` on an absent fleet returns `[]`, on an empty fleet
returns `[]`, and on any fleet in which no pattern condition holds of any
server also returns `[]`. -/
theorem detect_empty_and_no_trigger :
    (∀ now, detectProblems now none = []) ∧
    (∀ now, detectProblems now (some []) = []) ∧
    (∀ now fleet, (∀ s ∈ fleet, ∀ p ∈ problemPatterns, p.condition s = false) →
      detectProblems now (some fleet) = []) := by
  refine ⟨fun _ => rfl, fun _ => rfl, ?_⟩
  intro now fleet
  induction fleet with
  | nil => intro _; rfl
  | cons s rest ih =>
    intro h
    have hblk : detectForServer now s = [] := by
      simp only [detectForServer]
      rw [List.filterMap_eq_nil_iff]
      intro p hp
      simp [h s (List.mem_cons_self s rest) p hp]
    have hrest := ih (fun s' hs' p hp => h s' (List.mem_cons_of_mem _ hs') p hp)
    simp only [detectProblems] at hrest ⊢
    simp [hblk, hrest]

/-- Witness for C7 on a concrete non-triggering one-server fleet. -/
theorem detect_no_trigger_witness :
    detectProblems "t0" (some [srvAllLow]) = [] :=
  detect_empty_and_no_trigger.2.2 "t0" [srvAllLow] (by decide)

/-- C4. At the snapshot `{cpu:95, memory:40, disk:30, services:{nginx:running},
errors:[]}` the classifier returns "critical" as the claim states, but
`detectProblems` emits TWO entries for the server, not one: the raw
`warning_cpu` condition `cpu_usage >= 70` also matches at 95, although the
source's own comments on the warning rules say they "will only trigger if
not >=90". -/
theorem cpu95_classify_and_detect :
    getEffectiveServerStatus (some srvCpu95) = "critical" ∧
    (detectProblems "t0" (some [srvCpu95])).length = 2 ∧
    (detectProblems "t0" (some [srvCpu95])).map Problem.description =
      ["CPU 사용률이 90% 이상으로 매우 높음", "CPU 사용률이 70% 이상으로 경고 수준"] :=
  ⟨by decide, by decide, by decide⟩

/-- C5 counterexample. The records emitted by `detectProblems` have no
"solutions" field: the object literal's keys are `serverHostname`,
`description`, `severity`, `solution` (singular, the solutions joined by a
space), `causes` (joined by ", ") and `timestamp`. -/
theorem detect_no_solutions_field :
    ((detectProblems "t0" (some [srvCpu95])).all
        (fun p => !((p.toFields.map Prod.fst).contains "solutions"))) = true ∧
    ((detectProblems "t0" (some [srvCpu95])).map (fun p => p.toFields.map Prod.fst)) =
      [["serverHostname", "description", "severity", "solution", "causes", "timestamp"],
       ["serverHostname", "description", "severity", "solution", "causes", "timestamp"]] :=
  ⟨by decide, by decide⟩

lemma length_filterMap_if {α β : Type} (l : List α) (c : α → Bool) (g : α → β) :
    (l.filterMap (fun a => if c a then some (g a) else none)).length = (l.filter c).length := by
  induction l with
  | nil => rfl
  | cons a t ih =>
    by_cases h : c a = true
    · simp [List.filterMap_cons, List.filter_cons, h, ih]
    · rw [Bool.not_eq_true] at h
      simp [List.filterMap_cons, List.filter_cons, h, ih]

/-- C5 as amended. For every server of the fleet and every pattern whose
condition holds, `detectProblems` emits the record built by `mkProblem`:
it carries the rule's description, the causes joined by ", " under `causes`,
the solutions joined by " " under the singular field name `solution`, the
severity capitalised, and the six literal field names; and the output length
is exactly the number of matching (server, pattern) pairs, so each matching
pair contributes exactly one record. -/
theorem detect_emits_per_matching_rule (now : String) (fleet : List Server) :
    (∀ s ∈ fleet, ∀ p ∈ problemPatterns, p.condition s = true →
      mkProblem now s p ∈ detectProblems now (some fleet) ∧
      (mkProblem now s p).serverHostname = s.hostname ∧
      (mkProblem now s p).description = p.description ∧
      (mkProblem now s p).severity =
        (if p.severity == "critical" then "Critical" else "Warning") ∧
      (mkProblem now s p).causes = String.intercalate ", " p.causes ∧
      (mkProblem now s p).solution = String.intercalate " " p.solutions ∧
      (mkProblem now s p).toFields.map Prod.fst =
        ["serverHostname", "description", "severity", "solution", "causes", "timestamp"]) ∧
    (detectProblems now (some fleet)).length =
      (fleet.map (fun s => (problemPatterns.filter (fun p => p.condition s)).length)).sum := by
  constructor
  · intro s hs p hp hcond
    refine ⟨?_, rfl, rfl, rfl, rfl, rfl, rfl⟩
    simp only [detectProblems]
    rw [List.mem_flatten]
    refine ⟨detectForServer now s, List.mem_map_of_mem _ hs, ?_⟩
    simp only [detectForServer]
    rw [List.mem_filterMap]
    exact ⟨p, hp, by simp [hcond]⟩
  · simp only [detectProblems]
    rw [List.length_flatten, List.map_map]
    apply congrArg
    apply List.map_congr_left
    intro s _
    exact length_filterMap_if problemPatterns (fun p => p.condition s) (mkProblem now s)

/-- Witness for the amended C5: the `critical_cpu` record for `srvCpu95` is
emitted, and the output size equals the number of matching pairs. -/
theorem detect_emits_witness :
    mkProblem "t0" srvCpu95 (problemPatterns.get ⟨0, by decide⟩) ∈
      detectProblems "t0" (some [srvCpu95]) ∧
    (detectProblems "t0" (some [srvCpu95])).length =
      ([srvCpu95].map (fun s => (problemPatterns.filter (fun p => p.condition s)).length)).sum :=
  ⟨((detect_emits_per_matching_rule "t0" [srvCpu95]).1 srvCpu95 (by decide)
      (problemPatterns.get ⟨0, by decide⟩) (problemPatterns.get_mem _ _) (by decide)).1,
   (detect_emits_per_matching_rule "t0" [srvCpu95]).2⟩

/-- C8 counterexample. Each record carries `timestamp: new Date().toISOString()`,
so two calls at different instants differ structurally even on an unchanged
fleet. -/
theorem detect_not_idempotent_timestamp :
    detectProblems "2024-01-01T00:00:00.000Z" (some [srvCpu95]) ≠
      detectProblems "2024-01-01T00:00:05.000Z" (some [srvCpu95]) := by
  decide

/-- Copy of a problem record with the timestamp field blanked. -/
def eraseTimestamp (p : Problem) : Problem := { p with timestamp := "" }

lemma map_erase_filterMap (t1 t2 : String) (s : Server) (pats : List ProblemPattern) :
    (pats.filterMap (fun p =>
        if p.condition s then some (mkProblem t1 s p) else none)).map eraseTimestamp =
    (pats.filterMap (fun p =>
        if p.condition s then some (mkProblem t2 s p) else none)).map eraseTimestamp := by
  induction pats with
  | nil => rfl
  | cons p t ih =>
    by_cases h : p.condition s = true
    · simp only [List.filterMap_cons, h, if_true, List.map_cons, ih]
      congr 1
    · rw [Bool.not_eq_true] at h
      simp [List.filterMap_cons, h, ih]

/-- C8 as amended. Two calls of `detectProblems` on the same unchanged fleet
yield the same records with the same field values in the same order, except
for the `timestamp` field, which carries the wall-clock time of each call. -/
theorem detect_idempotent_up_to_timestamp (t1 t2 : String) (fleet : Option (List Server)) :
    (detectProblems t1 fleet).map eraseTimestamp =
      (detectProblems t2 fleet).map eraseTimestamp := by
  cases fleet with
  | none => rfl
  | some data =>
    simp only [detectProblems]
    induction data with
    | nil => rfl
    | cons s rest ih =>
      simp only [List.map_cons, List.flatten_cons, List.map_append, ih]
      congr 1
      simpa only [detectForServer] using map_erase_filterMap t1 t2 s problemPatterns

def srvCpu75 : Server :=
  { hostname := "app-01", cpu_usage := some 75, memory_usage_percent := some 20,
    disk := some [{ disk_usage_percent := some 20 }],
    services := some [("mysql", "running")], errors := some [], net := none }

def srvMem95 : Server :=
  { hostname := "db-01", cpu_usage := some 10, memory_usage_percent := some 95,
    disk := some [{ disk_usage_percent := some 20 }],
    services := some [("mysql", "running")], errors := some [], net := none }

/-- Position-indexed form of "every Critical entry precedes every other
entry": anything strictly before a Critical record is itself Critical. -/
def critFirst (l : List Problem) : Prop :=
  ∀ i j, i < j → j < l.length →
    (l.getD j dfltProblem).severity = "Critical" →
    (l.getD i dfltProblem).severity = "Critical"

/-- C3 counterexample. `detectProblems` itself does not sort: on the fleet
[warning-only server, critical server] its raw output is
[Warning, Critical, Warning], so a Critical entry follows a Warning entry.
The Critical-first order only appears after the sort in `updateProblemsList`. -/
theorem detect_not_critical_first :
    ¬ critFirst (detectProblems "t0" (some [srvCpu75, srvCpu95])) := by
  intro h
  have h1 := h 0 1 (by decide) (by decide) (by decide)
  exact absurd h1 (by decide)

lemma getD_of_lt (l : List Problem) (n : ℕ) (h : n < l.length) :
    l.getD n dfltProblem = l.get ⟨n, h⟩ := by
  rw [List.getD_eq_getElem _ _ h, List.get_eq_getElem]

lemma severityScore_le_one {sev : String} (h : sev ≠ "Critical") :
    severityScore sev ≤ 1 := by
  have hb : (sev == "Critical") = false := beq_eq_false_iff_ne.mpr h
  unfold severityScore
  rw [hb]
  simp only [Bool.false_eq_true, if_false]
  split_ifs <;> norm_num

lemma sortProblems_critical_first (l : List Problem) (i j : ℕ) (hij : i < j)
    (hj : j < (sortProblems l).length)
    (hcrit : ((sortProblems l).getD j dfltProblem).severity = "Critical") :
    ((sortProblems l).getD i dfltProblem).severity = "Critical" := by
  haveI : IsTotal Problem (fun a b => severityScore b.severity ≤ severityScore a.severity) :=
    ⟨fun a b => le_total _ _⟩
  haveI : IsTrans Problem (fun a b => severityScore b.severity ≤ severityScore a.severity) :=
    ⟨fun a b c h1 h2 => le_trans h2 h1⟩
  have hsorted : List.Sorted
      (fun a b => severityScore b.severity ≤ severityScore a.severity) (sortProblems l) :=
    List.sorted_insertionSort _ l
  have hi : i < (sortProblems l).length := lt_trans hij hj
  rw [getD_of_lt _ _ hj] at hcrit
  rw [getD_of_lt _ _ hi]
  have key := List.Sorted.rel_get_of_lt hsorted (a := ⟨i, hi⟩) (b := ⟨j, hj⟩)
    (Fin.mk_lt_mk.mpr hij)
  rw [hcrit] at key
  by_contra hne
  have hle := severityScore_le_one hne
  have : severityScore "Critical" = 2 := rfl
  rw [this] at key
  omega

lemma filter_score_orderedInsert (k : ℤ) (a : Problem) (l : List Problem) :
    (List.orderedInsert (fun x y => severityScore y.severity ≤ severityScore x.severity)
        a l).filter (fun p => severityScore p.severity == k) =
      (if severityScore a.severity == k
        then a :: l.filter (fun p => severityScore p.severity == k)
        else l.filter (fun p => severityScore p.severity == k)) := by
  induction l with
  | nil =>
    by_cases ha : (severityScore a.severity == k) = true
    · simp [List.orderedInsert, List.filter_cons, ha]
    · rw [Bool.not_eq_true] at ha
      simp [List.orderedInsert, List.filter_cons, ha]
  | cons b t ih =>
    unfold List.orderedInsert
    by_cases hr : severityScore b.severity ≤ severityScore a.severity
    · rw [if_pos hr, List.filter_cons]
    · rw [if_neg hr, List.filter_cons, ih]
      by_cases ha : (severityScore a.severity == k) = true
      · have ha' : severityScore a.severity = k := by simpa using ha
        have hb : (severityScore b.severity == k) = false := by
          have hbk : severityScore b.severity ≠ k := by
            intro hbe
            exact hr (le_of_eq (hbe.trans ha'.symm))
          simpa using hbk
        simp [ha, hb, List.filter_cons]
      · have ha' : (severityScore a.severity == k) = false := by
          simpa using ha
        simp [ha', List.filter_cons]

lemma filter_score_sortProblems (k : ℤ) (l : List Problem) :
    (sortProblems l).filter (fun p => severityScore p.severity == k) =
      l.filter (fun p => severityScore p.severity == k) := by
  induction l with
  | nil => rfl
  | cons a t ih =>
    simp only [sortProblems, List.insertionSort] at ih ⊢
    rw [filter_score_orderedInsert, ih, List.filter_cons]

lemma detect_severity_cases (now : String) (fleet : Option (List Server)) :
    ∀ p ∈ detectProblems now fleet, p.severity = "Critical" ∨ p.severity = "Warning" := by
  intro p hp
  cases fleet with
  | none => simp [detectProblems] at hp
  | some data =>
    simp only [detectProblems] at hp
    rw [List.mem_flatten] at hp
    obtain ⟨blk, hblk, hpblk⟩ := hp
    rw [List.mem_map] at hblk
    obtain ⟨s, _, rfl⟩ := hblk
    simp only [detectForServer] at hpblk
    rw [List.mem_filterMap] at hpblk
    obtain ⟨pat, _, hpat⟩ := hpblk
    by_cases hc : pat.condition s = true
    · rw [if_pos hc, Option.some.injEq] at hpat
      rw [← hpat]
      by_cases h2 : (pat.severity == "critical") = true
      · exact Or.inl (by simp [mkProblem, h2])
      · rw [Bool.not_eq_true] at h2
        exact Or.inr (by simp [mkProblem, h2])
    · rw [if_neg hc] at hpat
      exact absurd hpat (by simp)

lemma filter_sev_detect (now : String) (fleet : Option (List Server)) :
    (detectProblems now fleet).filter (fun p =>
        p.severity == "Critical" || p.severity == "Warning" || p.severity == "Error") =
      detectProblems now fleet := by
  rw [List.filter_eq_self]
  intro p hp
  rcases detect_severity_cases now fleet p hp with h | h <;> simp [h]

/-- C3 as amended. `detectProblems` returns entries in server-iteration
order with each server's entries in rule-table order (so Critical may follow
Warning across servers); the ranked list produced from its output by the
stable severity sort of `updateProblemsList` in `data_processor.js` satisfies
both halves of the ranking property: (1) every entry preceding a Critical
entry is Critical, i.e. all Critical entries precede all Warning/Error
entries; and (2) within each severity rank the original evaluation order is
preserved — for every severity score `k`, the ranked list's subsequence of
rank-`k` entries is exactly the subsequence of rank-`k` entries of the raw
`detectProblems` output (rule-table order, then server-iteration order). -/
theorem ranked_critical_first_and_stable (now : String) (fleet : Option (List Server)) :
    (∀ i j, i < j → j < (updateProblemsListSort (detectProblems now fleet)).length →
      ((updateProblemsListSort (detectProblems now fleet)).getD j
          dfltProblem).severity = "Critical" →
      ((updateProblemsListSort (detectProblems now fleet)).getD i
          dfltProblem).severity = "Critical") ∧
    (∀ k : ℤ, (updateProblemsListSort (detectProblems now fleet)).filter
        (fun p => severityScore p.severity == k) =
      (detectProblems now fleet).filter (fun p => severityScore p.severity == k)) := by
  have h1 : updateProblemsListSort (detectProblems now fleet) =
      sortProblems (detectProblems now fleet) := by
    unfold updateProblemsListSort
    rw [filter_sev_detect]
  constructor
  · intro i j hij hj hcrit
    exact sortProblems_critical_first _ i j hij hj hcrit
  · intro k
    rw [h1, filter_score_sortProblems]

/-- Witness for the amended C3 on a fleet with two Critical-tier servers:
the two Critical entries head the ranked list, and the Warning-rank
subsequence of the ranked list equals that of the raw output. -/
theorem ranked_critical_first_and_stable_witness :
    ((updateProblemsListSort (detectProblems "t0" (some [srvCpu95, srvMem95]))).getD 1
        dfltProblem).severity = "Critical" ∧
    ((updateProblemsListSort (detectProblems "t0" (some [srvCpu95, srvMem95]))).getD 0
        dfltProblem).severity = "Critical" ∧
    (updateProblemsListSort (detectProblems "t0" (some [srvCpu95, srvMem95]))).filter
        (fun p => severityScore p.severity == 1) =
      (detectProblems "t0" (some [srvCpu95, srvMem95])).filter
        (fun p => severityScore p.severity == 1) :=
  ⟨by decide,
   (ranked_critical_first_and_stable "t0" (some [srvCpu95, srvMem95])).1 0 1
     (by decide) (by decide) (by decide),
   (ranked_critical_first_and_stable "t0" (some [srvCpu95, srvMem95])).2 1⟩
